import Mathlib

/-!
Verification development for the Smart Plant Monitor advice pipeline
(`plant_monitor_app.py` plus the Vercel entrypoint `api/index.py`).

The core pipeline is embedded shallowly:
* Python runtime values occurring in the pipeline are modelled by `PyVal`
  (Python floats are modelled as exact rationals `ℚ`; no claim here depends
  on binary floating-point rounding, only on decimal coercion/rendering).
* The Firestore document store is an opaque map `Store` from document paths
  to optional field dictionaries, mirroring `client.document(path).get()`.
* The Meta AI capability is an opaque function from prompt text to either a
  raised exception (its message) or a reply value.
* `HTTPException` outcomes are modelled by the `Outcome` inductive with the
  status codes fixed in the source.
-/

/-- Model of the Python runtime values flowing through the pipeline:
`None`, `bool`, `int`, `float` (as an exact rational), `str`, `list`, `dict`
(an association list with string keys, as produced by `json.loads` and by
Firestore's `to_dict()`). -/
inductive PyVal where
  | noneV : PyVal
  | boolV : Bool → PyVal
  | intV : Int → PyVal
  | floatV : ℚ → PyVal
  | strV : String → PyVal
  | listV : List PyVal → PyVal
  | dictV : List (String × PyVal) → PyVal

/-- First-match association-list lookup, modelling Python `d[k]` / `k in d`
(dictionaries produced by the Python runtime have unique keys). -/
def lookupField : List (String × PyVal) → String → Option PyVal
  | [], _ => Option.none
  | (k, v) :: rest, key => if k = key then Option.some v else lookupField rest key

/-- Model of Python `k in d`. -/
def hasKeyB (fields : List (String × PyVal)) (key : String) : Bool :=
  (lookupField fields key).isSome

/-- Drop the characters satisfying `p` from both ends of a character list
(the semantics of Python `str.strip`). -/
def stripEnds (p : Char → Bool) (cs : List Char) : List Char :=
  ((cs.dropWhile p).reverse.dropWhile p).reverse

/-- Digits of a numeral, most significant first, to a natural number. -/
def digitsToNat (cs : List Char) : Nat :=
  cs.foldl (fun acc c => acc * 10 + (c.toNat - '0'.toNat)) 0

/-- Split a character list into its leading decimal digits and the rest. -/
def splitDigits (cs : List Char) : List Char × List Char :=
  (cs.takeWhile Char.isDigit, cs.dropWhile Char.isDigit)

/-- Model of Python `float(s)` on strings: optional surrounding whitespace,
optional sign, then `digits`, `digits.digits`, `digits.`, or `.digits`,
optionally followed by an exponent part `e`/`E` with optional sign and at
least one digit.  (The special values `inf`/`nan` and digit underscores are
not modelled; no behaviour claimed here involves them.) -/
def pyParseFloat (s : String) : Option ℚ :=
  let cs := stripEnds Char.isWhitespace s.data
  let (neg, cs) : Bool × List Char :=
    match cs with
    | '-' :: rest => (true, rest)
    | '+' :: rest => (false, rest)
    | rest => (false, rest)
  let (intDigits, cs) := splitDigits cs
  let (fracDigits, cs) : List Char × List Char :=
    match cs with
    | '.' :: rest => splitDigits rest
    | rest => ([], rest)
  if intDigits = [] ∧ fracDigits = [] then Option.none
  else
    let mantissa : ℚ :=
      if fracDigits = [] then (digitsToNat intDigits : ℚ)
      else (digitsToNat (intDigits ++ fracDigits) : ℚ) / (10 : ℚ) ^ fracDigits.length
    let signed : ℚ := if neg then -mantissa else mantissa
    match cs with
    | [] => Option.some signed
    | e :: rest =>
      if e = 'e' ∨ e = 'E' then
        let (expNeg, rest) : Bool × List Char :=
          match rest with
          | '-' :: r => (true, r)
          | '+' :: r => (false, r)
          | r => (false, r)
        let (expDigits, rest) := splitDigits rest
        if expDigits = [] ∨ rest ≠ [] then Option.none
        else
          let scale : ℚ := (10 : ℚ) ^ digitsToNat expDigits
          Option.some (if expNeg then signed / scale else signed * scale)
      else Option.none

/-- Model of Python `float(x)` applied to a document field: numbers and
booleans convert, strings are parsed (`ValueError` on failure), every other
value raises `TypeError`.  Both exception kinds are handled identically by
`fetch_measurements`, so the error carries no payload. -/
def pyFloatCoerce : PyVal → Except Unit ℚ
  | .boolV b => .ok (if b then 1 else 0)
  | .intV n => .ok (n : ℚ)
  | .floatV q => .ok q
  | .strV s =>
    match pyParseFloat s with
    | Option.some q => .ok q
    | Option.none => .error ()
  | _ => .error ()

/-- Model of `document_path.strip().strip("/")`: trim surrounding
whitespace, then strip leading and trailing `/` characters. -/
def pyNormalizePath (s : String) : String :=
  String.mk (stripEnds (· = '/') (stripEnds Char.isWhitespace s.data))

/-- Round half to even, the rounding used by Python `format(x, ".1f")`. -/
def roundHalfEven (q : ℚ) : ℤ :=
  let f := ⌊q⌋
  let r := q - (f : ℚ)
  if r < 1 / 2 then f
  else if (1 : ℚ) / 2 < r then f + 1
  else if f % 2 = 0 then f else f + 1

/-- Model of the f-string conversion `f"{x:.1f}"`: round to one decimal
place and render with exactly one digit after the decimal point. -/
def formatFloat1 (q : ℚ) : String :=
  let n := roundHalfEven (q * 10)
  let sign := if n < 0 then "-" else ""
  let m := n.natAbs
  sign ++ toString (m / 10) ++ "." ++ toString (m % 10)

/-- Skip JSON whitespace. -/
def skipWs : List Char → List Char
  | [] => []
  | c :: cs => if c = ' ' ∨ c = '\t' ∨ c = '\n' ∨ c = '\r' then skipWs cs else c :: cs

/-- Value of a hexadecimal digit. -/
def hexVal (c : Char) : Option Nat :=
  if c.isDigit then Option.some (c.toNat - '0'.toNat)
  else if 'a' ≤ c ∧ c ≤ 'f' then Option.some (c.toNat - 'a'.toNat + 10)
  else if 'A' ≤ c ∧ c ≤ 'F' then Option.some (c.toNat - 'A'.toNat + 10)
  else Option.none

/-- Parse the body of a JSON string after the opening quote, handling the
standard escapes; returns the decoded characters and the remaining input. -/
def parseStringBody : Nat → List Char → Option (List Char × List Char)
  | 0, _ => Option.none
  | _ + 1, [] => Option.none
  | fuel + 1, c :: rest =>
    if c = '"' then Option.some ([], rest)
    else if c = '\\' then
      match rest with
      | [] => Option.none
      | e :: rest2 =>
        if e = 'u' then
          match rest2 with
          | h1 :: h2 :: h3 :: h4 :: rest3 =>
            match hexVal h1, hexVal h2, hexVal h3, hexVal h4 with
            | Option.some a, Option.some b, Option.some c2, Option.some d =>
              (parseStringBody fuel rest3).map fun p =>
                (Char.ofNat (((a * 16 + b) * 16 + c2) * 16 + d) :: p.1, p.2)
            | _, _, _, _ => Option.none
          | _ => Option.none
        else
          match (if e = '"' then Option.some '"'
                 else if e = '\\' then Option.some '\\'
                 else if e = '/' then Option.some '/'
                 else if e = 'b' then Option.some (Char.ofNat 8)
                 else if e = 'f' then Option.some (Char.ofNat 12)
                 else if e = 'n' then Option.some '\n'
                 else if e = 'r' then Option.some '\r'
                 else if e = 't' then Option.some '\t'
                 else Option.none) with
          | Option.some ch => (parseStringBody fuel rest2).map fun p => (ch :: p.1, p.2)
          | Option.none => Option.none
    else (parseStringBody fuel rest).map fun p => (c :: p.1, p.2)

/-- Parse an optional JSON exponent part; returns the exponent (if present)
and the remaining input. -/
def parseJExp : List Char → Option (Option Int × List Char)
  | [] => Option.some (Option.none, [])
  | e :: rest =>
    if e = 'e' ∨ e = 'E' then
      let p : Bool × List Char :=
        match rest with
        | '-' :: r => (true, r)
        | '+' :: r => (false, r)
        | r => (false, r)
      let ds := splitDigits p.2
      if ds.1 = [] then Option.none
      else
        let n : Int := (digitsToNat ds.1 : Int)
        Option.some (Option.some (if p.1 then -n else n), ds.2)
    else Option.some (Option.none, e :: rest)

/-- Build the numeric value of a JSON number literal: `int` when no
fraction or exponent is present, `float` otherwise — as `json.loads` does. -/
def mkJNumber (neg : Bool) (intDigits fracDigits : List Char) (fracPresent : Bool)
    (expo : Option Int) : PyVal :=
  if fracPresent ∨ expo.isSome then
    let mant : ℚ := (digitsToNat (intDigits ++ fracDigits) : ℚ) / (10 : ℚ) ^ fracDigits.length
    let scaled : ℚ :=
      match expo with
      | Option.some e => if 0 ≤ e then mant * (10 : ℚ) ^ e.toNat else mant / (10 : ℚ) ^ (-e).toNat
      | Option.none => mant
    .floatV (if neg then -scaled else scaled)
  else
    .intV (if neg then -(digitsToNat intDigits : Int) else (digitsToNat intDigits : Int))

/-- Parse a JSON number literal (no leading `+`, no leading zeros, at least
one digit before and after a decimal point). -/
def parseJNumber (cs : List Char) : Option (PyVal × List Char) :=
  let p : Bool × List Char :=
    match cs with
    | '-' :: r => (true, r)
    | r => (false, r)
  let ip := splitDigits p.2
  if ip.1 = [] then Option.none
  else if 1 < ip.1.length ∧ ip.1.head? = Option.some '0' then Option.none
  else
    match ip.2 with
    | '.' :: r =>
      let fp := splitDigits r
      if fp.1 = [] then Option.none
      else (parseJExp fp.2).map fun q => (mkJNumber p.1 ip.1 fp.1 true q.1, q.2)
    | _ => (parseJExp ip.2).map fun q => (mkJNumber p.1 ip.1 [] false q.1, q.2)

mutual

/-- Recursive-descent JSON value, fuelled to guarantee termination. -/
def parseJValue : Nat → List Char → Option (PyVal × List Char)
  | 0, _ => Option.none
  | fuel + 1, cs =>
    match skipWs cs with
    | [] => Option.none
    | c :: rest =>
      if c = 't' then
        match rest with
        | 'r' :: 'u' :: 'e' :: r => Option.some (.boolV true, r)
        | _ => Option.none
      else if c = 'f' then
        match rest with
        | 'a' :: 'l' :: 's' :: 'e' :: r => Option.some (.boolV false, r)
        | _ => Option.none
      else if c = 'n' then
        match rest with
        | 'u' :: 'l' :: 'l' :: r => Option.some (.noneV, r)
        | _ => Option.none
      else if c = '"' then
        (parseStringBody (fuel + 1) rest).map fun p => (.strV (String.mk p.1), p.2)
      else if c = '\x7b' then
        match skipWs rest with
        | '\x7d' :: r => Option.some (.dictV [], r)
        | _ => (parseJMembers fuel rest).map fun p => (.dictV p.1, p.2)
      else if c = '[' then
        match skipWs rest with
        | ']' :: r => Option.some (.listV [], r)
        | _ => (parseJElems fuel rest).map fun p => (.listV p.1, p.2)
      else parseJNumber (c :: rest)

/-- Members of a JSON object after the opening brace (non-empty case). -/
def parseJMembers : Nat → List Char → Option (List (String × PyVal) × List Char)
  | 0, _ => Option.none
  | fuel + 1, cs =>
    match skipWs cs with
    | '"' :: rest =>
      match parseStringBody (fuel + 1) rest with
      | Option.some (key, r1) =>
        match skipWs r1 with
        | ':' :: r2 =>
          match parseJValue fuel r2 with
          | Option.some (v, r3) =>
            match skipWs r3 with
            | ',' :: r4 => (parseJMembers fuel r4).map fun p => ((String.mk key, v) :: p.1, p.2)
            | '\x7d' :: r4 => Option.some ([(String.mk key, v)], r4)
            | _ => Option.none
          | Option.none => Option.none
        | _ => Option.none
      | Option.none => Option.none
    | _ => Option.none

/-- Elements of a JSON array after the opening bracket (non-empty case). -/
def parseJElems : Nat → List Char → Option (List PyVal × List Char)
  | 0, _ => Option.none
  | fuel + 1, cs =>
    match parseJValue fuel cs with
    | Option.some (v, r1) =>
      match skipWs r1 with
      | ',' :: r2 => (parseJElems fuel r2).map fun p => (v :: p.1, p.2)
      | ']' :: r2 => Option.some ([v], r2)
      | _ => Option.none
    | Option.none => Option.none

end

/-- Parse a complete JSON document: one value, then only trailing
whitespace — the acceptance condition of `json.loads`. -/
def jsonParse (s : String) : Option PyVal :=
  match parseJValue (s.length + 16) s.data with
  | Option.some (v, rest) => if skipWs rest = [] then Option.some v else Option.none
  | Option.none => Option.none

/-- Decimal rendering of a model float, used where the source interpolates a
value into an f-string (`f"{data}"`, `f"{raw}"`). -/
def qRepr (q : ℚ) : String :=
  if q.den = 1 then toString q.num ++ ".0"
  else
    match (List.range 60).find? (fun k => (10 : ℕ) ^ k % q.den = 0) with
    | Option.some k =>
      let m := (q.num * ((10 : ℤ) ^ k / (q.den : ℤ))).natAbs
      let sign := if q.num < 0 then "-" else ""
      let fracRaw := toString (m % 10 ^ k)
      let frac0 := String.mk (List.replicate (k - fracRaw.length) '0') ++ fracRaw
      let fracTrimmed := frac0.dropRightWhile (· = '0')
      let frac := if fracTrimmed = "" then "0" else fracTrimmed
      sign ++ toString (m / 10 ^ k) ++ "." ++ frac
    | Option.none => toString q.num ++ "/" ++ toString q.den

mutual

/-- Model of Python `repr`/f-string rendering of a `PyVal`, used in the
error details that interpolate whole values. -/
def pyRepr : PyVal → String
  | .noneV => "None"
  | .boolV true => "True"
  | .boolV false => "False"
  | .intV n => toString n
  | .floatV q => qRepr q
  | .strV s => "'" ++ s ++ "'"
  | .listV xs => "[" ++ pyReprList xs ++ "]"
  | .dictV fs => "\x7b" ++ pyReprFields fs ++ "\x7d"

/-- Comma-separated rendering of list elements. -/
def pyReprList : List PyVal → String
  | [] => ""
  | [v] => pyRepr v
  | v :: rest => pyRepr v ++ ", " ++ pyReprList rest

/-- Comma-separated rendering of dict entries. -/
def pyReprFields : List (String × PyVal) → String
  | [] => ""
  | [(k, v)] => "'" ++ k ++ "': " ++ pyRepr v
  | (k, v) :: rest => "'" ++ k ++ "': " ++ pyRepr v ++ ", " ++ pyReprFields rest

end

/-- The exceptions that can escape the normalization block of
`get_plant_status` (lines 174–186): the explicit
`ValueError(f"Estructura desconocida: ...")`, the `TypeError` raised by
`json.loads` on a non-string argument, and `json.JSONDecodeError` carrying
the offending text. -/
inductive NormErr where
  | unknownStructure : PyVal → NormErr
  | jsonTypeError : NormErr
  | jsonDecodeError : String → NormErr

/-- `str(e)` for the exceptions above, as interpolated into the HTTP 500
detail. -/
def normErrMsg : NormErr → String
  | .unknownStructure raw => "Estructura desconocida: " ++ pyRepr raw
  | .jsonTypeError => "the JSON object must be str, bytes or bytearray"
  | .jsonDecodeError s => "invalid JSON: " ++ s

/-- Model of `json.loads`: parse a string argument as a JSON document;
a non-string argument raises `TypeError`. -/
def json_loads : PyVal → Except NormErr PyVal
  | .strV s =>
    match jsonParse s with
    | Option.some v => .ok v
    | Option.none => .error (.jsonDecodeError s)
  | _ => .error .jsonTypeError

/-- The response-normalization block of `get_plant_status` (source lines
176–186): a dict already holding `needs_watering`, `needs_soil` and
`comment` is taken as-is; otherwise a dict with a `message` key has that
field parsed as JSON; any other dict raises `ValueError`; a non-dict reply
is passed to `json.loads` directly. -/
def normalizeReply (raw : PyVal) : Except NormErr PyVal :=
  match raw with
  | .dictV fields =>
    if hasKeyB fields "needs_watering" && hasKeyB fields "needs_soil" &&
        hasKeyB fields "comment" then
      .ok (.dictV fields)
    else if hasKeyB fields "message" then
      json_loads ((lookupField fields "message").getD .noneV)
    else
      .error (.unknownStructure (.dictV fields))
  | v => json_loads v

/-- The response entity of the endpoint (source class
`PlantAdviceResponse`). -/
structure PlantAdviceResponse where
  needs_watering : Bool
  needs_soil : Bool
  comment : String
deriving DecidableEq

/-- Lax boolean coercion performed by pydantic for a `bool` field:
booleans, the numbers 0/1, and the usual boolean-ish strings
(case-insensitive). -/
def coerceBool : PyVal → Option Bool
  | .boolV b => Option.some b
  | .intV n => if n = 0 then Option.some false else if n = 1 then Option.some true else Option.none
  | .floatV q => if q = 0 then Option.some false else if q = 1 then Option.some true else Option.none
  | .strV s =>
    let t := s.toLower
    if t = "true" ∨ t = "t" ∨ t = "yes" ∨ t = "y" ∨ t = "on" ∨ t = "1" then Option.some true
    else if t = "false" ∨ t = "f" ∨ t = "no" ∨ t = "n" ∨ t = "off" ∨ t = "0" then Option.some false
    else Option.none
  | _ => Option.none

/-- Coercion performed by pydantic for a `str` field: strings only. -/
def coerceStr : PyVal → Option String
  | .strV s => Option.some s
  | _ => Option.none

/-- The exceptions that can escape `PlantAdviceResponse(**advice_data)`:
the `TypeError` of `**` applied to a non-mapping, and a pydantic
`ValidationError` naming the first offending field. -/
inductive ValErr where
  | notAMapping : ValErr
  | fieldError : String → ValErr

/-- `str(e)` for the validation exceptions, as interpolated into the HTTP
500 detail (the pydantic message is modelled as naming the offending
field). -/
def valErrMsg : ValErr → String
  | .notAMapping => "argument after ** must be a mapping"
  | .fieldError f => "validation error for PlantAdviceResponse: " ++ f

/-- Model of `PlantAdviceResponse(**advice_data)` under pydantic's default
configuration: the argument must be a mapping; each required field is
looked up and lax-coerced, fields are checked in declaration order and the
error names the first field that is missing or not coercible; extra keys are
ignored. -/
def validateAdvice : PyVal → Except ValErr PlantAdviceResponse
  | .dictV fs =>
    match (lookupField fs "needs_watering").bind coerceBool with
    | Option.none => .error (.fieldError "needs_watering")
    | Option.some w =>
      match (lookupField fs "needs_soil").bind coerceBool with
      | Option.none => .error (.fieldError "needs_soil")
      | Option.some so =>
        match (lookupField fs "comment").bind coerceStr with
        | Option.none => .error (.fieldError "comment")
        | Option.some c => .ok ⟨w, so, c⟩
  | _ => .error .notAMapping

/-- The Firestore document store, abstracted to a map from normalized
document paths to the field dictionaries of existing documents
(`snapshot.exists` / `snapshot.to_dict()`). -/
def Store : Type := String → Option (List (String × PyVal))

/-- The two `HTTPException` classes raised by `fetch_measurements`,
carrying the `detail` string of the source. -/
inductive FetchErr where
  | invalid : String → FetchErr
  | notFoundE : String → FetchErr

/-- Detail of the 400 raised on an empty normalized path. -/
def emptyPathDetail : String := "El campo 'document_path' no puede estar vacío."

/-- Detail of the 404 raised when the document does not exist. -/
def notFoundDetail (document_path : String) : String :=
  "El documento '" ++ document_path ++ "' no existe en Firestore."

/-- Detail of the 400 raised on a `KeyError`, naming the missing field
(`exc.args[0]`). -/
def missingFieldDetail (document_path missingKey : String) : String :=
  "El documento '" ++ document_path ++ "' debe contener los campos " ++
    "'humedad' y 'temperatura'. No se encontró: " ++ missingKey

/-- Detail of the 400 raised on a `TypeError`/`ValueError` from `float`,
interpolating the document data. -/
def nonNumericDetail (data : List (String × PyVal)) : String :=
  "Los campos 'humedad' y 'temperatura' deben ser numéricos en Firestore. " ++
    "Datos recibidos: " ++ pyRepr (.dictV data)

/-- The `try` block of `fetch_measurements` over the document data:
`float(data["humedad"])` then `float(data["temperatura"])`, with the
`KeyError` and `TypeError`/`ValueError` handlers of the source. -/
def extractMeasurements (document_path : String) (data : List (String × PyVal)) :
    Except FetchErr (ℚ × ℚ) :=
  match lookupField data "humedad" with
  | Option.none => .error (.invalid (missingFieldDetail document_path "humedad"))
  | Option.some hv =>
    match pyFloatCoerce hv with
    | .error _ => .error (.invalid (nonNumericDetail data))
    | .ok humidity =>
      match lookupField data "temperatura" with
      | Option.none => .error (.invalid (missingFieldDetail document_path "temperatura"))
      | Option.some tv =>
        match pyFloatCoerce tv with
        | .error _ => .error (.invalid (nonNumericDetail data))
        | .ok temperature => .ok (humidity, temperature)

/-- `fetch_measurements` (source lines 93–135), with the document store
passed explicitly: normalize the path, reject an empty result, resolve the
document, and extract the two fields. -/
def fetch_measurements (store : Store) (document_path : String) :
    Except FetchErr (ℚ × ℚ) :=
  let normalized_path := pyNormalizePath document_path
  if normalized_path = "" then .error (.invalid emptyPathDetail)
  else
    match store normalized_path with
    | Option.none => .error (.notFoundE (notFoundDetail document_path))
    | Option.some data => extractMeasurements document_path data

/-- Prompt text before the interpolated humidity. -/
def promptHead : String :=
  "Eres un experto en cuidado de plantas. Responderás en español y " ++
  "proporcionarás recomendaciones específicas basadas en los datos de humedad " ++
  "y temperatura que recibes. La respuesta debe ser un objeto JSON con las " ++
  "claves 'needs_watering', 'needs_soil', 'needs_light' y 'comment'. " ++
  "No incluyas ningún texto fuera del JSON. " ++
  "La planta tiene una humedad de "

/-- Prompt text between the interpolated humidity and temperature. -/
def promptMid : String := "% y una temperatura de "

/-- Prompt text after the interpolated temperature. -/
def promptTail : String := " °C. Indica si necesita riego, más tierra o más luz."

/-- The prompt f-string of `get_plant_status` (source lines 163–171), with
both measurements rendered via `:.1f`. -/
def buildPrompt (humidity temperature : ℚ) : String :=
  promptHead ++ formatFloat1 humidity ++ promptMid ++ formatFloat1 temperature ++ promptTail

/-- Detail of the 500 raised when obtaining or parsing the AI reply fails
(source line 190). -/
def aiFailureDetail (e : String) : String :=
  "Error al obtener o analizar la respuesta de Meta AI: " ++ e

/-- Detail of the 500 raised when the parsed reply fails validation
(source line 198). -/
def schemaFailureDetail (e : String) : String :=
  "La respuesta de Meta AI no tiene la estructura esperada: " ++ e

/-- The four terminal outcomes of a `POST /plant-status` request. -/
inductive Outcome where
  | success : PlantAdviceResponse → Outcome
  | clientError : String → Outcome
  | notFoundR : String → Outcome
  | serverError : String → Outcome
deriving DecidableEq

/-- The HTTP status attached to each outcome by the source
(`response_model` success / the three `HTTPException` status codes). -/
def statusOf : Outcome → Nat
  | .success _ => 200
  | .clientError _ => 400
  | .notFoundR _ => 404
  | .serverError _ => 500

/-- The AI capability: prompt text to either a raised exception (modelled
by its message) or a reply value. -/
def AICap : Type := String → Except String PyVal

/-- The endpoint handler `get_plant_status` (source lines 157–199), with
the document store and AI capability passed explicitly: fetch the
measurements (propagating the 400/404 `HTTPException`s), build the prompt,
invoke the AI inside a `try` whose handler converts any exception to a 500,
normalize the reply in the same `try`, then validate in a second `try`
whose handler also converts to a 500. -/
def get_plant_status (store : Store) (ai : AICap) (document_path : String) : Outcome :=
  match fetch_measurements store document_path with
  | .error (.invalid d) => .clientError d
  | .error (.notFoundE d) => .notFoundR d
  | .ok (humidity, temperature) =>
    let prompt := buildPrompt humidity temperature
    match ai prompt with
    | .error e => .serverError (aiFailureDetail e)
    | .ok raw =>
      match normalizeReply raw with
      | .error ne => .serverError (aiFailureDetail (normErrMsg ne))
      | .ok advice_data =>
        match validateAdvice advice_data with
        | .error ve => .serverError (schemaFailureDetail (valErrMsg ve))
        | .ok advice => .success advice

/-- The process-wide mutable state of the module: the
`_firestore_client` global. -/
structure CoreState (Client : Type) where
  handle : Option Client

/-- `get_firestore_client` (source lines 63–90): return the cached handle
if set, otherwise run the external initialization `mk` (the
`firebase_admin` setup plus `firestore.client()`), cache it and return it.
The third component records whether initialization was performed on this
call. -/
def get_firestore_client {Client : Type} (mk : Unit → Client) (s : CoreState Client) :
    Client × CoreState Client × Bool :=
  match s.handle with
  | Option.some c => (c, s, false)
  | Option.none =>
    let c := mk ()
    (c, ⟨Option.some c⟩, true)

/-- State-passing version of `fetch_measurements`, tracking the client
state, whether the connection handle was initialized during the call, and
whether a document read was performed. -/
def fetchMeasurementsSt {Client : Type} (mk : Unit → Client) (store : Store)
    (document_path : String) (s : CoreState Client) :
    Except FetchErr (ℚ × ℚ) × CoreState Client × Bool × Bool :=
  let normalized_path := pyNormalizePath document_path
  if normalized_path = "" then
    (.error (.invalid emptyPathDetail), s, false, false)
  else
    let r := get_firestore_client mk s
    match store normalized_path with
    | Option.none => (.error (.notFoundE (notFoundDetail document_path)), r.2.1, r.2.2, true)
    | Option.some data => (extractMeasurements document_path data, r.2.1, r.2.2, true)

/-- The claim-C5 side condition: the field value is a number or a numeric
string (in particular it coerces without error). -/
def isNumberOrNumericString : PyVal → Bool
  | .intV _ => true
  | .floatV _ => true
  | .strV s => (pyParseFloat s).isSome
  | _ => false

/-- A rendered value shows exactly one decimal place: it ends in a decimal
point followed by a single digit. -/
def oneDecimalPlace (s : String) : Prop :=
  ∃ pre c, c.isDigit = true ∧ s = pre ++ "." ++ String.singleton c

theorem digit_toString_singleton (d : Nat) (h : d < 10) :
    ∃ c : Char, c.isDigit = true ∧ toString d = String.singleton c := by
  interval_cases d <;>
    first
      | exact ⟨'0', by decide, by decide⟩
      | exact ⟨'1', by decide, by decide⟩
      | exact ⟨'2', by decide, by decide⟩
      | exact ⟨'3', by decide, by decide⟩
      | exact ⟨'4', by decide, by decide⟩
      | exact ⟨'5', by decide, by decide⟩
      | exact ⟨'6', by decide, by decide⟩
      | exact ⟨'7', by decide, by decide⟩
      | exact ⟨'8', by decide, by decide⟩
      | exact ⟨'9', by decide, by decide⟩

theorem formatFloat1_one_decimal (q : ℚ) : oneDecimalPlace (formatFloat1 q) := by
  obtain ⟨c, hc, hs⟩ :=
    digit_toString_singleton ((roundHalfEven (q * 10)).natAbs % 10)
      (Nat.mod_lt _ (by norm_num))
  exact ⟨(if roundHalfEven (q * 10) < 0 then "-" else "") ++
      toString ((roundHalfEven (q * 10)).natAbs / 10), c, hc, by
    simp only [formatFloat1]
    rw [hs]⟩

/-- C8: prompt construction is deterministic — two runs on the same
measurement pair produce byte-identical prompt strings — and the prompt
interpolates the humidity and the temperature through `formatFloat1`,
which always renders exactly one decimal place. -/
theorem prompt_builder_deterministic_one_decimal :
    (∀ h₁ t₁ h₂ t₂ : ℚ, h₁ = h₂ → t₁ = t₂ → buildPrompt h₁ t₁ = buildPrompt h₂ t₂) ∧
    (∀ h t : ℚ,
      buildPrompt h t =
        promptHead ++ formatFloat1 h ++ promptMid ++ formatFloat1 t ++ promptTail ∧
      oneDecimalPlace (formatFloat1 h) ∧ oneDecimalPlace (formatFloat1 t)) :=
  ⟨fun h₁ t₁ h₂ t₂ hh ht => by rw [hh, ht],
   fun h t => ⟨rfl, formatFloat1_one_decimal h, formatFloat1_one_decimal t⟩⟩

/-- Witness for C8 at the concrete measurement (42, 23.5). -/
theorem prompt_builder_deterministic_one_decimal_witness :
    buildPrompt 42 (47 / 2) = buildPrompt 42 (47 / 2) ∧
    oneDecimalPlace (formatFloat1 (47 / 2)) :=
  ⟨prompt_builder_deterministic_one_decimal.1 42 (47 / 2) 42 (47 / 2) rfl rfl,
   (prompt_builder_deterministic_one_decimal.2 42 (47 / 2)).2.2⟩

/-- C5: on a non-empty normalized path whose document exists and whose
`humedad`/`temperatura` fields are numbers or numeric strings,
`fetch_measurements` returns exactly the coerced float pair. -/
theorem fetch_measurements_success (store : Store) (p : String)
    (data : List (String × PyVal)) (hv tv : PyVal) (h t : ℚ)
    (hne : pyNormalizePath p ≠ "")
    (hdoc : store (pyNormalizePath p) = Option.some data)
    (hhv : lookupField data "humedad" = Option.some hv)
    (_hnum1 : isNumberOrNumericString hv = true)
    (hcoerce1 : pyFloatCoerce hv = .ok h)
    (htv : lookupField data "temperatura" = Option.some tv)
    (_hnum2 : isNumberOrNumericString tv = true)
    (hcoerce2 : pyFloatCoerce tv = .ok t) :
    fetch_measurements store p = .ok (h, t) := by
  simp [fetch_measurements, extractMeasurements, hne, hdoc, hhv, hcoerce1, htv, hcoerce2]

/-- Witness for C5: the spec's scenario `garden/plantA` with
`humedad = "42"`, `temperatura = 23.5` yields `(42.0, 23.5)`. -/
theorem fetch_measurements_success_witness :
    fetch_measurements
      (fun p => if p = "garden/plantA"
        then Option.some [("humedad", PyVal.strV "42"), ("temperatura", PyVal.floatV (47 / 2))]
        else Option.none)
      "garden/plantA" = .ok (42, 47 / 2) :=
  fetch_measurements_success _ "garden/plantA"
    [("humedad", PyVal.strV "42"), ("temperatura", PyVal.floatV (47 / 2))]
    (PyVal.strV "42") (PyVal.floatV (47 / 2)) 42 (47 / 2)
    (by decide) rfl rfl (by decide) rfl rfl (by decide) rfl

/-- C4: `fetch_measurements` raises its 400 `InvalidInput` error in exactly
these cases — empty path after trimming and stripping separators; missing
`humedad`/`temperatura` field, with the detail naming the missing field;
or a field value that `float` cannot coerce, with the detail interpolating
the received data — and in no others. -/
theorem fetch_measurements_invalid_cases (store : Store) (p : String) :
    (pyNormalizePath p = "" →
      fetch_measurements store p = .error (.invalid emptyPathDetail)) ∧
    (∀ data, store (pyNormalizePath p) = Option.some data → pyNormalizePath p ≠ "" →
      ((lookupField data "humedad" = Option.none →
          fetch_measurements store p = .error (.invalid (missingFieldDetail p "humedad"))) ∧
        (∀ hv, lookupField data "humedad" = Option.some hv → pyFloatCoerce hv = .error () →
          fetch_measurements store p = .error (.invalid (nonNumericDetail data))) ∧
        (∀ hv h, lookupField data "humedad" = Option.some hv → pyFloatCoerce hv = .ok h →
          lookupField data "temperatura" = Option.none →
          fetch_measurements store p = .error (.invalid (missingFieldDetail p "temperatura"))) ∧
        (∀ hv h tv, lookupField data "humedad" = Option.some hv → pyFloatCoerce hv = .ok h →
          lookupField data "temperatura" = Option.some tv → pyFloatCoerce tv = .error () →
          fetch_measurements store p = .error (.invalid (nonNumericDetail data))))) ∧
    (∀ d, fetch_measurements store p = .error (.invalid d) →
      (pyNormalizePath p = "" ∧ d = emptyPathDetail) ∨
      ∃ data, store (pyNormalizePath p) = Option.some data ∧
        ((lookupField data "humedad" = Option.none ∧ d = missingFieldDetail p "humedad") ∨
          (∃ hv, lookupField data "humedad" = Option.some hv ∧ pyFloatCoerce hv = .error () ∧
            d = nonNumericDetail data) ∨
          (∃ hv h, lookupField data "humedad" = Option.some hv ∧ pyFloatCoerce hv = .ok h ∧
            lookupField data "temperatura" = Option.none ∧
            d = missingFieldDetail p "temperatura") ∨
          (∃ hv h tv, lookupField data "humedad" = Option.some hv ∧ pyFloatCoerce hv = .ok h ∧
            lookupField data "temperatura" = Option.some tv ∧ pyFloatCoerce tv = .error () ∧
            d = nonNumericDetail data))) := by
  refine ⟨fun hp => by simp [fetch_measurements, hp], ?_, ?_⟩
  · intro data hs hp
    refine ⟨fun hhv => by simp [fetch_measurements, extractMeasurements, hp, hs, hhv],
      fun hv hhv hcv => by simp [fetch_measurements, extractMeasurements, hp, hs, hhv, hcv],
      fun hv h hhv hcv htv => by
        simp [fetch_measurements, extractMeasurements, hp, hs, hhv, hcv, htv],
      fun hv h tv hhv hcv htv hct => by
        simp [fetch_measurements, extractMeasurements, hp, hs, hhv, hcv, htv, hct]⟩
  · intro d hd
    by_cases hp : pyNormalizePath p = ""
    · simp [fetch_measurements, hp] at hd
      exact Or.inl ⟨hp, hd.symm⟩
    · right
      cases hs : store (pyNormalizePath p) with
      | none => simp [fetch_measurements, hp, hs] at hd
      | some data =>
        refine ⟨data, rfl, ?_⟩
        cases hhv : lookupField data "humedad" with
        | none =>
          simp [fetch_measurements, extractMeasurements, hp, hs, hhv] at hd
          exact Or.inl ⟨rfl, hd.symm⟩
        | some hv =>
          cases hcv : pyFloatCoerce hv with
          | error u =>
            simp [fetch_measurements, extractMeasurements, hp, hs, hhv, hcv] at hd
            exact Or.inr (Or.inl ⟨hv, rfl, hcv, hd.symm⟩)
          | ok h =>
            cases htv : lookupField data "temperatura" with
            | none =>
              simp [fetch_measurements, extractMeasurements, hp, hs, hhv, hcv, htv] at hd
              exact Or.inr (Or.inr (Or.inl ⟨hv, h, rfl, hcv, rfl, hd.symm⟩))
            | some tv =>
              cases hct : pyFloatCoerce tv with
              | error u =>
                simp [fetch_measurements, extractMeasurements, hp, hs, hhv, hcv, htv, hct] at hd
                exact Or.inr (Or.inr (Or.inr ⟨hv, h, tv, rfl, hcv, rfl, hct, hd.symm⟩))
              | ok t =>
                simp [fetch_measurements, extractMeasurements, hp, hs, hhv, hcv, htv, hct] at hd

/-- Witness for C4: the empty-after-strip path, a document missing
`temperatura`, and a document with non-numeric `humedad`. -/
theorem fetch_measurements_invalid_cases_witness :
    fetch_measurements (fun _ => Option.none) " // " = .error (.invalid emptyPathDetail) ∧
    fetch_measurements
      (fun q => if q = "a" then Option.some [("humedad", PyVal.floatV 1)] else Option.none)
      "a" = .error (.invalid (missingFieldDetail "a" "temperatura")) ∧
    fetch_measurements
      (fun q => if q = "a" then Option.some [("humedad", PyVal.strV "x")] else Option.none)
      "a" = .error (.invalid (nonNumericDetail [("humedad", PyVal.strV "x")])) :=
  ⟨(fetch_measurements_invalid_cases (fun _ => Option.none) " // ").1 (by decide),
   ((fetch_measurements_invalid_cases _ "a").2.1 [("humedad", PyVal.floatV 1)] rfl
      (by decide)).2.2.1 (PyVal.floatV 1) 1 rfl rfl rfl,
   ((fetch_measurements_invalid_cases _ "a").2.1 [("humedad", PyVal.strV "x")] rfl
      (by decide)).2.1 (PyVal.strV "x") rfl rfl⟩

/-- C2: the three accepted reply shapes, attempted in order — a mapping
already holding the three required keys is returned unchanged (even when it
also has a `message` key); a mapping with a `message` key holding a JSON
string that decodes to such a mapping yields the decoded mapping; a bare
JSON string that decodes to such a mapping yields the decoded mapping. -/
theorem normalize_round_trip :
    (∀ fields, hasKeyB fields "needs_watering" = true → hasKeyB fields "needs_soil" = true →
      hasKeyB fields "comment" = true →
      normalizeReply (.dictV fields) = .ok (.dictV fields)) ∧
    (∀ s m, jsonParse s = Option.some (PyVal.dictV m) →
      hasKeyB m "needs_watering" = true → hasKeyB m "needs_soil" = true →
      hasKeyB m "comment" = true →
      normalizeReply (.dictV [("message", .strV s)]) = .ok (.dictV m)) ∧
    (∀ s m, jsonParse s = Option.some (PyVal.dictV m) →
      hasKeyB m "needs_watering" = true → hasKeyB m "needs_soil" = true →
      hasKeyB m "comment" = true →
      normalizeReply (.strV s) = .ok (.dictV m)) := by
  refine ⟨fun fields h1 h2 h3 => by simp [normalizeReply, h1, h2, h3], ?_, ?_⟩
  · intro s m hparse _ _ _
    show json_loads (PyVal.strV s) = .ok (.dictV m)
    simp [json_loads, hparse]
  · intro s m hparse _ _ _
    show json_loads (PyVal.strV s) = .ok (.dictV m)
    simp [json_loads, hparse]

/-- Witness for C2 on the spec's scenario replies, including a mapping that
has both the three required keys and a `message` key (shape 1 wins). -/
theorem normalize_round_trip_witness :
    normalizeReply (.dictV [("needs_watering", PyVal.boolV true),
      ("needs_soil", PyVal.boolV false), ("comment", PyVal.strV "Riega pronto"),
      ("message", PyVal.strV "ignored")]) =
      .ok (.dictV [("needs_watering", PyVal.boolV true), ("needs_soil", PyVal.boolV false),
        ("comment", PyVal.strV "Riega pronto"), ("message", PyVal.strV "ignored")]) ∧
    normalizeReply (.dictV [("message",
      .strV "\x7b\"needs_watering\": false, \"needs_soil\": true, \"comment\": \"ok\"\x7d")]) =
      .ok (.dictV [("needs_watering", PyVal.boolV false), ("needs_soil", PyVal.boolV true),
        ("comment", PyVal.strV "ok")]) ∧
    normalizeReply (.strV
      "\x7b\"needs_watering\": true, \"needs_soil\": false, \"comment\": \"Riega pronto\"\x7d") =
      .ok (.dictV [("needs_watering", PyVal.boolV true), ("needs_soil", PyVal.boolV false),
        ("comment", PyVal.strV "Riega pronto")]) :=
  ⟨normalize_round_trip.1 _ rfl rfl rfl,
   normalize_round_trip.2.1 _ _ rfl rfl rfl rfl,
   normalize_round_trip.2.2 _ _ rfl rfl rfl rfl⟩

/-- C3: a mapping reply with neither the three required keys nor a
`message` key fails with the unknown-structure error; a `message` field or
bare string whose JSON parse fails yields the decode error carrying the
offending text; and whenever normalization fails the endpoint returns the
500 outcome with the classification in the detail. -/
theorem normalize_failure_upstream :
    (∀ fields,
      (hasKeyB fields "needs_watering" && hasKeyB fields "needs_soil" &&
        hasKeyB fields "comment") = false →
      hasKeyB fields "message" = false →
      normalizeReply (.dictV fields) = .error (.unknownStructure (.dictV fields))) ∧
    (∀ fields s,
      (hasKeyB fields "needs_watering" && hasKeyB fields "needs_soil" &&
        hasKeyB fields "comment") = false →
      lookupField fields "message" = Option.some (.strV s) →
      jsonParse s = Option.none →
      normalizeReply (.dictV fields) = .error (.jsonDecodeError s)) ∧
    (∀ s, jsonParse s = Option.none →
      normalizeReply (.strV s) = .error (.jsonDecodeError s)) ∧
    (∀ (store : Store) (ai : AICap) (p : String) (h t : ℚ) (raw : PyVal) (err : NormErr),
      fetch_measurements store p = .ok (h, t) →
      ai (buildPrompt h t) = .ok raw →
      normalizeReply raw = .error err →
      get_plant_status store ai p = .serverError (aiFailureDetail (normErrMsg err)) ∧
      statusOf (get_plant_status store ai p) = 500) := by
  refine ⟨?_, ?_, ?_, ?_⟩
  · intro fields h1 h2
    simp [normalizeReply, h1, h2]
  · intro fields s h1 hmsg hparse
    have h2 : hasKeyB fields "message" = true := by simp [hasKeyB, hmsg]
    simp only [normalizeReply, h1, h2, hmsg, Option.getD_some, json_loads, hparse]
    simp
  · intro s hparse
    show json_loads (PyVal.strV s) = .error (.jsonDecodeError s)
    simp [json_loads, hparse]
  · intro store ai p h t raw err hfetch hai hnorm
    constructor <;> simp [get_plant_status, hfetch, hai, hnorm, statusOf]

/-- Witness for C3: a mapping of unknown structure, a `message` field with
unparsable JSON, a bare unparsable string, and the endpoint run where the
AI replies with that unparsable string. -/
theorem normalize_failure_upstream_witness :
    normalizeReply (.dictV [("foo", PyVal.noneV)]) =
      .error (.unknownStructure (.dictV [("foo", PyVal.noneV)])) ∧
    normalizeReply (.dictV [("message", PyVal.strV "not json")]) =
      .error (.jsonDecodeError "not json") ∧
    normalizeReply (.strV "not json") = .error (.jsonDecodeError "not json") ∧
    get_plant_status
      (fun q => if q = "plant" then
        Option.some [("humedad", PyVal.floatV 1), ("temperatura", PyVal.floatV 2)]
        else Option.none)
      (fun _ => .ok (.strV "not json")) "plant" =
      .serverError (aiFailureDetail (normErrMsg (.jsonDecodeError "not json"))) :=
  ⟨normalize_failure_upstream.1 _ rfl rfl,
   normalize_failure_upstream.2.1 _ "not json" rfl rfl rfl,
   normalize_failure_upstream.2.2.1 "not json" rfl,
   (normalize_failure_upstream.2.2.2
      (fun q => if q = "plant" then
        Option.some [("humedad", PyVal.floatV 1), ("temperatura", PyVal.floatV 2)]
        else Option.none)
      (fun _ => .ok (.strV "not json")) "plant" 1 2 (.strV "not json")
      (.jsonDecodeError "not json") rfl rfl rfl).1⟩

/-- C6: the validator accepts any candidate mapping whose three required
fields are present with valid (coercible) values, regardless of extra keys
such as `needs_light`; when a field is missing or its value fails coercion
it fails naming the first offending field in declaration order; and a
validation failure makes the endpoint return the 500 outcome. -/
theorem advice_validator_cases :
    (∀ fields wv w sv so cv c,
      lookupField fields "needs_watering" = Option.some wv → coerceBool wv = Option.some w →
      lookupField fields "needs_soil" = Option.some sv → coerceBool sv = Option.some so →
      lookupField fields "comment" = Option.some cv → coerceStr cv = Option.some c →
      validateAdvice (.dictV fields) = .ok ⟨w, so, c⟩) ∧
    (∀ fields, (lookupField fields "needs_watering").bind coerceBool = Option.none →
      validateAdvice (.dictV fields) = .error (.fieldError "needs_watering")) ∧
    (∀ fields wv w, lookupField fields "needs_watering" = Option.some wv →
      coerceBool wv = Option.some w →
      (lookupField fields "needs_soil").bind coerceBool = Option.none →
      validateAdvice (.dictV fields) = .error (.fieldError "needs_soil")) ∧
    (∀ fields wv w sv so, lookupField fields "needs_watering" = Option.some wv →
      coerceBool wv = Option.some w →
      lookupField fields "needs_soil" = Option.some sv → coerceBool sv = Option.some so →
      (lookupField fields "comment").bind coerceStr = Option.none →
      validateAdvice (.dictV fields) = .error (.fieldError "comment")) ∧
    (∀ (store : Store) (ai : AICap) (p : String) (h t : ℚ) (raw cand : PyVal) (ve : ValErr),
      fetch_measurements store p = .ok (h, t) →
      ai (buildPrompt h t) = .ok raw →
      normalizeReply raw = .ok cand →
      validateAdvice cand = .error ve →
      get_plant_status store ai p = .serverError (schemaFailureDetail (valErrMsg ve)) ∧
      statusOf (get_plant_status store ai p) = 500) := by
  refine ⟨?_, ?_, ?_, ?_, ?_⟩
  · intro fields wv w sv so cv c h1 h2 h3 h4 h5 h6
    simp [validateAdvice, h1, h2, h3, h4, h5, h6]
  · intro fields h1
    simp [validateAdvice, h1]
  · intro fields wv w h1 h2 h3
    simp [validateAdvice, h1, h2, h3]
  · intro fields wv w sv so h1 h2 h3 h4 h5
    simp [validateAdvice, h1, h2, h3, h4, h5]
  · intro store ai p h t raw cand ve hfetch hai hnorm hval
    constructor <;> simp [get_plant_status, hfetch, hai, hnorm, hval, statusOf]

/-- Witness for C6: a candidate with the extra `needs_light` key is
accepted; dropping `comment` or mistyping `needs_soil` is rejected naming
that field; and the endpoint maps the failure to the 500 outcome. -/
theorem advice_validator_cases_witness :
    validateAdvice (.dictV [("needs_watering", PyVal.boolV true),
      ("needs_soil", PyVal.boolV false), ("comment", PyVal.strV "ok"),
      ("needs_light", PyVal.boolV true)]) = .ok ⟨true, false, "ok"⟩ ∧
    validateAdvice (.dictV [("needs_watering", PyVal.boolV true),
      ("needs_soil", PyVal.boolV false)]) = .error (.fieldError "comment") ∧
    validateAdvice (.dictV [("needs_watering", PyVal.boolV true),
      ("needs_soil", PyVal.noneV), ("comment", PyVal.strV "ok")]) =
      .error (.fieldError "needs_soil") ∧
    get_plant_status
      (fun q => if q = "plant" then
        Option.some [("humedad", PyVal.floatV 1), ("temperatura", PyVal.floatV 2)]
        else Option.none)
      (fun _ => .ok (.dictV [("needs_watering", PyVal.boolV true),
        ("needs_soil", PyVal.boolV false), ("comment", PyVal.noneV)])) "plant" =
      .serverError (schemaFailureDetail (valErrMsg (.fieldError "comment"))) :=
  ⟨advice_validator_cases.1 _ (PyVal.boolV true) true (PyVal.boolV false) false
      (PyVal.strV "ok") "ok" rfl rfl rfl rfl rfl rfl,
   advice_validator_cases.2.2.2.1 _ (PyVal.boolV true) true (PyVal.boolV false) false
      rfl rfl rfl rfl rfl,
   advice_validator_cases.2.2.1 _ (PyVal.boolV true) true rfl rfl rfl,
   (advice_validator_cases.2.2.2.2
      (fun q => if q = "plant" then
        Option.some [("humedad", PyVal.floatV 1), ("temperatura", PyVal.floatV 2)]
        else Option.none)
      (fun _ => .ok (.dictV [("needs_watering", PyVal.boolV true),
        ("needs_soil", PyVal.boolV false), ("comment", PyVal.noneV)])) "plant" 1 2
      (.dictV [("needs_watering", PyVal.boolV true), ("needs_soil", PyVal.boolV false),
        ("comment", PyVal.noneV)])
      (.dictV [("needs_watering", PyVal.boolV true), ("needs_soil", PyVal.boolV false),
        ("comment", PyVal.noneV)])
      (.fieldError "comment") rfl rfl rfl rfl).1⟩

/-- C7: any exception raised by the AI invocation itself is caught by the
handler and reported as the 500 outcome whose detail interpolates the
exception message; the handler is a total function into `Outcome`, so no
exception propagates raw. -/
theorem ai_exception_caught (store : Store) (ai : AICap) (p : String) (h t : ℚ) (e : String)
    (hfetch : fetch_measurements store p = .ok (h, t))
    (hai : ai (buildPrompt h t) = .error e) :
    get_plant_status store ai p = .serverError (aiFailureDetail e) ∧
    statusOf (get_plant_status store ai p) = 500 := by
  constructor <;> simp [get_plant_status, hfetch, hai, statusOf]

/-- Witness for C7: an AI capability that always raises. -/
theorem ai_exception_caught_witness :
    get_plant_status
      (fun q => if q = "plant" then
        Option.some [("humedad", PyVal.floatV 1), ("temperatura", PyVal.floatV 2)]
        else Option.none)
      (fun _ => .error "network down") "plant" =
      .serverError (aiFailureDetail "network down") :=
  (ai_exception_caught
    (fun q => if q = "plant" then
      Option.some [("humedad", PyVal.floatV 1), ("temperatura", PyVal.floatV 2)]
      else Option.none)
    (fun _ => .error "network down") "plant" 1 2 "network down" rfl rfl).1

/-- C1: every request terminates in exactly one of the four outcomes, with
the HTTP status fixed by the failure class — 400 when the fetch raises
`InvalidInput`, 404 when the document does not exist, 500 when the AI call
raises or the reply fails normalization or validation, and 200 with the
validated advice on success. -/
theorem endpoint_four_outcomes (store : Store) (ai : AICap) (p : String) :
    (∃ d, fetch_measurements store p = .error (.invalid d) ∧
      get_plant_status store ai p = .clientError d ∧
      statusOf (get_plant_status store ai p) = 400) ∨
    (∃ d, fetch_measurements store p = .error (.notFoundE d) ∧
      get_plant_status store ai p = .notFoundR d ∧
      statusOf (get_plant_status store ai p) = 404) ∨
    (∃ h t, fetch_measurements store p = .ok (h, t) ∧
      ∃ d, get_plant_status store ai p = .serverError d ∧
        statusOf (get_plant_status store ai p) = 500 ∧
        ((∃ e, ai (buildPrompt h t) = .error e ∧ d = aiFailureDetail e) ∨
          (∃ raw err, ai (buildPrompt h t) = .ok raw ∧ normalizeReply raw = .error err ∧
            d = aiFailureDetail (normErrMsg err)) ∨
          (∃ raw cand ve, ai (buildPrompt h t) = .ok raw ∧ normalizeReply raw = .ok cand ∧
            validateAdvice cand = .error ve ∧ d = schemaFailureDetail (valErrMsg ve)))) ∨
    (∃ h t raw cand advice, fetch_measurements store p = .ok (h, t) ∧
      ai (buildPrompt h t) = .ok raw ∧ normalizeReply raw = .ok cand ∧
      validateAdvice cand = .ok advice ∧
      get_plant_status store ai p = .success advice ∧
      statusOf (get_plant_status store ai p) = 200) := by
  cases hf : fetch_measurements store p with
  | error fe =>
    cases fe with
    | invalid d =>
      exact Or.inl ⟨d, rfl, by simp [get_plant_status, hf], by simp [get_plant_status, hf, statusOf]⟩
    | notFoundE d =>
      exact Or.inr (Or.inl ⟨d, rfl, by simp [get_plant_status, hf],
        by simp [get_plant_status, hf, statusOf]⟩)
  | ok v =>
    obtain ⟨h, t⟩ := v
    cases hai : ai (buildPrompt h t) with
    | error e =>
      refine Or.inr (Or.inr (Or.inl ⟨h, t, rfl, aiFailureDetail e,
        by simp [get_plant_status, hf, hai], by simp [get_plant_status, hf, hai, statusOf],
        Or.inl ⟨e, hai, rfl⟩⟩))
    | ok raw =>
      cases hnorm : normalizeReply raw with
      | error err =>
        refine Or.inr (Or.inr (Or.inl ⟨h, t, rfl, aiFailureDetail (normErrMsg err),
          by simp [get_plant_status, hf, hai, hnorm],
          by simp [get_plant_status, hf, hai, hnorm, statusOf],
          Or.inr (Or.inl ⟨raw, err, hai, hnorm, rfl⟩)⟩))
      | ok cand =>
        cases hval : validateAdvice cand with
        | error ve =>
          refine Or.inr (Or.inr (Or.inl ⟨h, t, rfl, schemaFailureDetail (valErrMsg ve),
            by simp [get_plant_status, hf, hai, hnorm, hval],
            by simp [get_plant_status, hf, hai, hnorm, hval, statusOf],
            Or.inr (Or.inr ⟨raw, cand, ve, hai, hnorm, hval, rfl⟩)⟩))
        | ok advice =>
          refine Or.inr (Or.inr (Or.inr ⟨h, t, raw, cand, advice, rfl, hai, hnorm, hval,
            by simp [get_plant_status, hf, hai, hnorm, hval],
            by simp [get_plant_status, hf, hai, hnorm, hval, statusOf]⟩))

/-- C9: the connection handle is initialized at most once — a set handle is
returned as-is with no initialization, a second call after any first call
reuses the cached handle, and the fetch operation never reassigns a set
handle. -/
theorem firestore_client_init_once {Client : Type} (mk : Unit → Client) (s₀ : CoreState Client) :
    (∀ c, s₀.handle = Option.some c → get_firestore_client mk s₀ = (c, s₀, false)) ∧
    (get_firestore_client mk (get_firestore_client mk s₀).2.1 =
      ((get_firestore_client mk s₀).1, (get_firestore_client mk s₀).2.1, false)) ∧
    (∀ (store : Store) (p : String) (c : Client), s₀.handle = Option.some c →
      ((fetchMeasurementsSt mk store p s₀).2.1).handle = Option.some c) := by
  refine ⟨?_, ?_, ?_⟩
  · intro c hc
    simp [get_firestore_client, hc]
  · cases hc : s₀.handle <;> simp [get_firestore_client, hc]
  · intro store p c hc
    unfold fetchMeasurementsSt
    by_cases hp : pyNormalizePath p = ""
    · simp [hp, hc]
    · cases hs : store (pyNormalizePath p) <;>
        simp [hp, hs, get_firestore_client, hc]

/-- Witness for C9 with a concrete handle type. -/
theorem firestore_client_init_once_witness :
    get_firestore_client (fun _ => 3) (⟨Option.some 5⟩ : CoreState Nat) =
      (5, ⟨Option.some 5⟩, false) ∧
    ((fetchMeasurementsSt (fun _ => 3) (fun _ => Option.none) "x"
      (⟨Option.some 5⟩ : CoreState Nat)).2.1).handle = Option.some 5 :=
  ⟨(firestore_client_init_once (fun _ => 3) ⟨Option.some 5⟩).1 5 rfl,
   (firestore_client_init_once (fun _ => 3) ⟨Option.some 5⟩).2.2
      (fun _ => Option.none) "x" 5 rfl⟩

/-- C10: a path that is empty after trimming and stripping separators makes
the fetch fail with the 400 error before touching the client — the state is
unchanged, no initialization happens, and no document read is performed;
the pure fetch returns the same 400 error. -/
theorem empty_path_no_client_no_read {Client : Type} (mk : Unit → Client) (store : Store)
    (p : String) (s : CoreState Client) (hp : pyNormalizePath p = "") :
    fetchMeasurementsSt mk store p s =
      (.error (.invalid emptyPathDetail), s, false, false) ∧
    fetch_measurements store p = .error (.invalid emptyPathDetail) := by
  constructor
  · simp [fetchMeasurementsSt, hp]
  · simp [fetch_measurements, hp]

/-- Witness for C10 on the all-separator path. -/
theorem empty_path_no_client_no_read_witness :
    fetchMeasurementsSt (fun _ => (0 : Nat)) (fun _ => Option.none) " // " ⟨Option.none⟩ =
      (.error (.invalid emptyPathDetail), ⟨Option.none⟩, false, false) ∧
    fetch_measurements (fun _ => Option.none) " // " = .error (.invalid emptyPathDetail) :=
  empty_path_no_client_no_read (fun _ => (0 : Nat)) (fun _ => Option.none) " // "
    ⟨Option.none⟩ (by decide)
